import Mathlib

/-!
Shallow embedding of the Aegis discord bot (src/bot.py) and verification of
its specification claims.

Modelling conventions:
- Role/channel/member identifiers are natural numbers (discord snowflakes).
- A guild config is a JSON object; each field of `Cfg` is wrapped in `Option`
  where `none` means the key is absent from the dict, mirroring Python
  `dict.get` defaults (`Cfg.getAllowed` etc. apply the same defaults the code
  passes to `.get`).
- Python truthiness tests on `int | None` values (`if not log_channel_id`)
  treat both `None` and `0` as falsy; `truthyId` models this.
- `discord.ui.Select.values` holds the values the user actually submitted
  during the session (empty when the element was never interacted with);
  option values are `str(id)` or the literal string "none", modelled by
  `SelVal` with the integer already parsed.
- Channel sends are recorded as `Send` values carrying the
  `discord.AllowedMentions` flags passed at each call site; interaction
  responses and message edits are recorded as `Effect`s.
- All functions are total: an operation that cannot raise in the model is one
  whose Python original has no raising path for the modelled inputs; where a
  raise matters (the durable write in `SetupView.save`), the outcome is made
  explicit via the `writeOk` parameter and the `raised` result field.
-/

namespace Aegis

/-- A guild role: id, display name, rank position, and whether it is the
@everyone default role (`Role.is_default()` in discord.py). -/
structure Role where
  id : Nat
  name : String
  position : Nat
  isDefault : Bool
deriving DecidableEq, Repr

/-- A guild channel; `isTextChannel` models `isinstance(ch, discord.TextChannel)`. -/
structure Channel where
  id : Nat
  name : String
  isTextChannel : Bool
deriving DecidableEq, Repr

/-- A guild: id plus its live role and channel lists. -/
structure Guild where
  id : Nat
  roles : List Role
  channels : List Channel
deriving DecidableEq, Repr

/-- A guild member: id, current role-id set, administrator permission flag. -/
structure Member where
  id : Nat
  roleIds : List Nat
  isAdministrator : Bool
deriving DecidableEq, Repr

/-- `interaction.user` is either a guild `Member` or a bare `User`
(`isinstance(member, discord.Member)` distinguishes them). -/
inductive User where
  | member (m : Member)
  | plain (id : Nat)
deriving DecidableEq, Repr

/-- The user id, defined for both variants. -/
def User.uid : User → Nat
  | .member m => m.id
  | .plain i => i

/-- `guild.get_role(rid)`. -/
def Guild.get_role (g : Guild) (rid : Nat) : Option Role :=
  g.roles.find? (fun r => r.id == rid)

/-- `guild.get_channel(cid)`. -/
def Guild.get_channel (g : Guild) (cid : Nat) : Option Channel :=
  g.channels.find? (fun ch => ch.id == cid)

/-- `guild.text_channels`. -/
def Guild.text_channels (g : Guild) : List Channel :=
  g.channels.filter (fun ch => ch.isTextChannel)

/-- `role.mention`. -/
def Role.mention (r : Role) : String :=
  "<@&" ++ toString r.id ++ ">"

/-- `channel.mention`. -/
def Channel.mention (c : Channel) : String :=
  "<#" ++ toString c.id ++ ">"

/-- The stored guild config dict (`config/<guild_id>.json`). Each field is
`none` when the key is absent; `admiral_role_id` / `war_channel_id` /
`log_channel_id` are themselves nullable in the JSON, hence the nested
`Option`. -/
structure Cfg where
  allowed_role_ids : Option (List Nat)
  excluded_role_ids : Option (List Nat)
  admiral_role_id : Option (Option Nat)
  war_channel_id : Option (Option Nat)
  log_channel_id : Option (Option Nat)
  updated_by : Option Nat
  updated_at : Option Nat
deriving DecidableEq, Repr

/-- The empty dict `{}` returned by `load_cfg` for a missing or corrupt file. -/
def emptyCfg : Cfg :=
  ⟨none, none, none, none, none, none, none⟩

/-- `cfg.get("allowed_role_ids", [])`. -/
def Cfg.getAllowed (c : Cfg) : List Nat :=
  c.allowed_role_ids.getD []

/-- `cfg.get("excluded_role_ids", [])`. -/
def Cfg.getExcluded (c : Cfg) : List Nat :=
  c.excluded_role_ids.getD []

/-- `cfg.get("admiral_role_id")`: absent key and stored null both read as `none`. -/
def Cfg.getAdmiral (c : Cfg) : Option Nat :=
  c.admiral_role_id.getD none

/-- `cfg.get("war_channel_id")`. -/
def Cfg.getWar (c : Cfg) : Option Nat :=
  c.war_channel_id.getD none

/-- `cfg.get("log_channel_id")`. -/
def Cfg.getLog (c : Cfg) : Option Nat :=
  c.log_channel_id.getD none

/-- Python truthiness on an `int | None` id: `None` and `0` are falsy. -/
def truthyId : Option Nat → Option Nat
  | none => none
  | some n => if n == 0 then none else some n

/-!  Config storage (`load_cfg` / `save_cfg`).  The filesystem under
`./config/` is a map from guild id to the state of the file
`config/<guild_id>.json`: absent, present but unparseable (``json.loads``
raises), or a parsed config. -/

/-- State of the per-guild config file. -/
inductive FileContent where
  | absent
  | corrupt (raw : String)
  | valid (c : Cfg)
deriving DecidableEq, Repr

/-- The config directory: one file slot per guild id. -/
def ConfigDir : Type := Nat → FileContent

/-- `load_cfg`: returns the parsed dict when the file exists and parses, and
the empty dict `{}` both when the file is absent and when `json.loads` raises
(the bare `except Exception: return {}`). Total: never propagates an error. -/
def load_cfg (fs : ConfigDir) (guild_id : Nat) : Cfg :=
  match fs guild_id with
  | .absent => emptyCfg
  | .corrupt _ => emptyCfg
  | .valid c => c

/-- `save_cfg`: full-replace write of the serialized config for one guild id
(`json.dumps` / `json.loads` round-trip the dict exactly, so the stored value
is modelled as the config itself). -/
def save_cfg (fs : ConfigDir) (guild_id : Nat) (data : Cfg) : ConfigDir :=
  fun g => if g == guild_id then .valid data else fs g

/-!  Authorization (`member_has_any_role` / `can_use_commands`). -/

/-- `member_has_any_role`: false on an empty role list, else true iff any of
the given role ids is one of the member roles. -/
def member_has_any_role (m : Member) (role_ids : List Nat) : Bool :=
  if role_ids.isEmpty then false
  else role_ids.any (fun rid => m.roleIds.contains rid)

/-- Denial reason when no allowed roles are configured (source text transcribed
without the backquotes around /setup and with an ASCII-free apostrophe forms). -/
def notConfiguredMsg : String :=
  "No allowed roles are configured yet. Ask an admin to run /setup."

/-- Denial reason for a non-member invoker. -/
def notServerMsg : String :=
  "Use this in a server."

/-- Denial reason when the member lacks every allowed role. -/
def missingRoleMsg : String :=
  "You do not have a required role to use this command."

/-- Denial reason when the member holds an excluded role. -/
def excludedMsg : String :=
  "Your role is excluded from using this command."

/-- `can_use_commands(member, cfg)`: the layered allow/deny policy, checks in
source order: empty allowed list, non-member invoker, missing allowed role,
excluded role, otherwise allow. -/
def can_use_commands (user : User) (cfg : Cfg) : Bool × String :=
  if cfg.getAllowed.isEmpty then (false, notConfiguredMsg)
  else
    match user with
    | .plain _ => (false, notServerMsg)
    | .member m =>
      if !(member_has_any_role m cfg.getAllowed) then (false, missingRoleMsg)
      else if !cfg.getExcluded.isEmpty && member_has_any_role m cfg.getExcluded then
        (false, excludedMsg)
      else (true, "")

/-!  Mention rendering helpers. -/

/-- `get_role_mentions`: resolves each id, drops unresolved ones, joins the
mentions with ", ". -/
def get_role_mentions (g : Guild) (role_ids : List Nat) : String :=
  String.intercalate ", "
    ((role_ids.filterMap (fun rid => g.get_role rid)).map Role.mention)

/-- `get_channel_mention`: "Not set" for a falsy id, an unresolved id, or a
non-text channel. -/
def get_channel_mention (g : Guild) (channel_id : Option Nat) : String :=
  match truthyId channel_id with
  | none => "Not set"
  | some cid =>
    match g.get_channel cid with
    | some ch => if ch.isTextChannel then ch.mention else "Not set"
    | none => "Not set"

/-- `user.mention`. -/
def user_mention (uid : Nat) : String :=
  "<@" ++ toString uid ++ ">"

/-!  Outbound channel sends and the audit logger (`log_action`). -/

/-- The `discord.AllowedMentions` flags passed to `channel.send`. -/
structure AllowedMentions where
  roles : Bool
  users : Bool
  everyone : Bool
deriving DecidableEq, Repr

/-- One `channel.send(...)` call: destination channel id, text content,
optional embed description, and the mention-restriction flags. -/
structure Send where
  channelId : Nat
  content : String
  embed : Option String
  mentions : AllowedMentions
deriving DecidableEq, Repr

/-- A send pings nobody globally: the everyone/here flag is off. -/
def noEveryone (s : Send) : Bool :=
  !s.mentions.everyone

/-- `log_action(guild, cfg, content, embed)`: returns the channel sends it
performs (none or one). Early-returns on a falsy `log_channel_id`; sends only
when the id resolves to a text channel, always with
`AllowedMentions(roles=True, users=True, everyone=False)`. Total: no raising
path for a missing or unresolvable destination. -/
def log_action (g : Guild) (cfg : Cfg) (content : String) (embed : Option String) :
    List Send :=
  match truthyId cfg.getLog with
  | none => []
  | some cid =>
    match g.get_channel cid with
    | some ch =>
      if ch.isTextChannel then [⟨cid, content, embed, ⟨true, true, false⟩⟩]
      else []
    | none => []

/-- Observer: the configured audit destination is absent, or no longer
resolves to a live text channel. -/
def noLiveAuditDestination (g : Guild) (cfg : Cfg) : Bool :=
  match truthyId cfg.getLog with
  | none => true
  | some cid =>
    match g.get_channel cid with
    | none => true
    | some ch => !ch.isTextChannel

/-!  The setup wizard (`SetupView`). -/

/-- A select-menu option value: `str(role_or_channel_id)` or the literal
string "none" (the sentinel offered by the optional single selects). -/
inductive SelVal where
  | sentinelNone
  | idVal (n : Nat)
deriving DecidableEq, Repr

/-- A `discord.SelectOption`: label, value, and the preselected-default flag
rendered when the panel opens. -/
structure SelectOption where
  label : String
  value : SelVal
  isDefault : Bool
deriving DecidableEq, Repr

/-- Python `r.name[:95]` and `f"#{ch.name}"[:95]`. -/
def truncate95 (s : String) : String :=
  s.take 95

/-- Stable insertion of a role into a list sorted by strictly descending
position: mirrors `sorted(guild.roles, key=lambda x: x.position, reverse=True)`
element order (stable for equal positions). -/
def insertRoleDesc (r : Role) : List Role → List Role
  | [] => [r]
  | y :: ys => if r.position < y.position then y :: insertRoleDesc r ys else r :: y :: ys

/-- `sorted(guild.roles, key=position, reverse=True)`. -/
def sortRolesDesc (rs : List Role) : List Role :=
  rs.foldr insertRoleDesc []

/-- Option list for the allowed/excluded role selects: every non-default role
in descending rank order, preselected iff its id is in the given set. -/
def roleSelectOptions (g : Guild) (selectedIds : List Nat) : List SelectOption :=
  (sortRolesDesc g.roles).filterMap (fun r =>
    if r.isDefault then none
    else some ⟨truncate95 r.name, SelVal.idVal r.id, selectedIds.contains r.id⟩)

/-- Option list for the admiral select: a "None" sentinel (default iff no
admiral configured) followed by the roles. -/
def admiralOptions (g : Guild) (admiral_id : Option Nat) : List SelectOption :=
  ⟨"None", SelVal.sentinelNone, admiral_id.isNone⟩ ::
    (sortRolesDesc g.roles).filterMap (fun r =>
      if r.isDefault then none
      else some ⟨truncate95 r.name, SelVal.idVal r.id, admiral_id == some r.id⟩)

/-- Option list for the war-channel select: a "None" sentinel followed by the
text channels. -/
def warOptions (g : Guild) (war_channel_id : Option Nat) : List SelectOption :=
  ⟨"None", SelVal.sentinelNone, war_channel_id.isNone⟩ ::
    g.text_channels.map (fun ch =>
      ⟨truncate95 ("#" ++ ch.name), SelVal.idVal ch.id, war_channel_id == some ch.id⟩)

/-- Option list for the required log-channel select: the text channels, no
sentinel. -/
def logOptions (g : Guild) (log_channel_id : Option Nat) : List SelectOption :=
  g.text_channels.map (fun ch =>
    ⟨truncate95 ("#" ++ ch.name), SelVal.idVal ch.id, log_channel_id == some ch.id⟩)

/-- The wizard panel state: the guild, the copied config the panel was opened
with, the opening admin, the rendered option lists, and each select's
submitted values for the current session (`Select.values`, empty when the
element was never interacted with). Values of selects whose option sets
contain only ids are kept pre-parsed as `Nat` (the `int(v)` conversions in
`save` cannot fail on them). -/
structure SetupView where
  guild : Guild
  cfg : Cfg
  invoker : Member
  allowed_options : List SelectOption
  excluded_options : List SelectOption
  admiral_options : List SelectOption
  war_options : List SelectOption
  log_options : List SelectOption
  allowed_values : List Nat
  excluded_values : List Nat
  admiral_values : List SelVal
  war_values : List SelVal
  log_values : List Nat
deriving DecidableEq, Repr

/-- `SetupView.__init__`: copies the config, renders every option list from
the live guild state with preselected defaults taken from the stored config,
and starts with no submitted values. -/
def mkSetupView (g : Guild) (cfg : Cfg) (invoker : Member) : SetupView :=
  { guild := g
    cfg := cfg
    invoker := invoker
    allowed_options := roleSelectOptions g cfg.getAllowed
    excluded_options := roleSelectOptions g cfg.getExcluded
    admiral_options := admiralOptions g cfg.getAdmiral
    war_options := warOptions g cfg.getWar
    log_options := logOptions g cfg.getLog
    allowed_values := []
    excluded_values := []
    admiral_values := []
    war_values := []
    log_values := [] }

/-- The cumulative select submissions of one panel session. -/
def SetupView.withValues (v : SetupView) (a e : List Nat) (ad w : List SelVal)
    (l : List Nat) : SetupView :=
  { v with
    allowed_values := a
    excluded_values := e
    admiral_values := ad
    war_values := w
    log_values := l }

/-- Observable side effects of the wizard handlers. -/
inductive Effect where
  | storeWrite (guildId : Nat) (data : Cfg)
  | respond (msg : String) (ephemeral : Bool)
  | editMessage (content : String)
  | send (s : Send)
deriving DecidableEq, Repr

/-- Whether an effect is a channel send. -/
def Effect.isSend : Effect → Bool
  | .send _ => true
  | _ => false

/-- Wizard states: Open (panel live, draft mutable), Saved (terminal),
Cancelled (terminal). -/
inductive WizardState where
  | opened
  | savedDone
  | cancelled
deriving DecidableEq, Repr

/-- Outcome of a wizard button handler: the effects performed in order, the
resulting wizard state, and whether an exception escaped the handler. -/
structure SaveResult where
  effects : List Effect
  state : WizardState
  raised : Bool
deriving DecidableEq, Repr

/-- The rejection text of `SetupView.interaction_check`. -/
def lockedMsg : String :=
  "This setup panel is locked to the admin who opened it."

/-- `SetupView.interaction_check`: accept the opening admin by id, else any
guild member with the administrator permission; everyone else gets an
ephemeral rejection and `False` (so no component callback runs and nothing is
mutated). -/
def SetupView.interaction_check (v : SetupView) (user : User) : Bool × List Effect :=
  if user.uid == v.invoker.id then (true, [])
  else
    match user with
    | .member m =>
      if m.isAdministrator then (true, [])
      else (false, [Effect.respond lockedMsg true])
    | .plain _ => (false, [Effect.respond lockedMsg true])

/-- First submitted value of an optional single select, with the "none"
sentinel mapped to null (the `if val != "none"` handling in `save`). -/
def firstIdOrNone : List SelVal → Option Nat
  | [] => none
  | v :: _ =>
    match v with
    | .sentinelNone => none
    | .idVal n => some n

/-- Python `s or "_none_"`: the empty string is falsy. -/
def orNoneText (s : String) : String :=
  if s == "" then "_none_" else s

/-- The field-summary block built in `SetupView.save` (lines 198-204). -/
def saveSummary (g : Guild) (allowed excluded : List Nat)
    (admiral war log : Option Nat) : String :=
  "**Allowed:** " ++ orNoneText (get_role_mentions g allowed) ++ "\n" ++
  "**Excluded:** " ++ orNoneText (get_role_mentions g excluded) ++ "\n" ++
  "**Admiral Role:** " ++
    (match truthyId admiral with
     | some rid =>
       match g.get_role rid with
       | some r => r.mention
       | none => "Not set"
     | none => "Not set") ++ "\n" ++
  "**War Channel:** " ++ get_channel_mention g war ++ "\n" ++
  "**Log Channel:** " ++ get_channel_mention g log

/-- The `new_cfg` dict assembled in `SetupView.save`: every key written, the
optional fields as explicit nulls when unselected or "none". -/
def newCfgOf (allowed excluded : List Nat) (admiral war : Option Nat)
    (log0 userId now : Nat) : Cfg :=
  { allowed_role_ids := some allowed
    excluded_role_ids := some excluded
    admiral_role_id := some admiral
    war_channel_id := some war
    log_channel_id := some (some log0)
    updated_by := some userId
    updated_at := some now }

/-- The config `save` persists for this session, given the selected log
channel, the saving user and the current time. -/
def SetupView.newCfg (v : SetupView) (log0 userId now : Nat) : Cfg :=
  newCfgOf v.allowed_values v.excluded_values (firstIdOrNone v.admiral_values)
    (firstIdOrNone v.war_values) log0 userId now

/-- The summary text `save` renders for this session. -/
def SetupView.saveSummaryText (v : SetupView) (log0 : Nat) : String :=
  saveSummary v.guild v.allowed_values v.excluded_values
    (firstIdOrNone v.admiral_values) (firstIdOrNone v.war_values) (some log0)

/-- `SetupView.save`: if no log channel was selected, respond with the
field-specific ephemeral error and stay Open (no store call); otherwise write
the assembled config, edit the panel message to the saved summary
(deactivating the UI), then emit the audit entry via `log_action`. `writeOk`
models whether the durable `save_cfg` write raises: on a failed write the
exception escapes before the success edit and before any audit send. -/
def SetupView.save (v : SetupView) (writeOk : Bool) (userId now : Nat) : SaveResult :=
  match v.log_values with
  | [] => ⟨[Effect.respond "Please select a **Log Channel**." true], .opened, false⟩
  | log0 :: _ =>
    if writeOk then
      ⟨Effect.storeWrite v.guild.id (v.newCfg log0 userId now) ::
        Effect.editMessage ("✅ **Configuration saved.**\n" ++ v.saveSummaryText log0) ::
        (log_action v.guild (v.newCfg log0 userId now)
          ("🛠️ Configuration updated by " ++ user_mention userId ++ ".\n" ++
            v.saveSummaryText log0) none).map Effect.send,
       .savedDone, false⟩
    else ⟨[], .opened, true⟩

/-- `SetupView.cancel`: deactivate the UI, discard the draft, no store write. -/
def SetupView.cancel : SaveResult :=
  ⟨[Effect.editMessage "Setup canceled. No changes saved."], .cancelled, false⟩

/-!  The guided action flows (`/roe` and `/declare` modal submissions).
Jump-url text inside the ephemeral confirmations is abstracted away; only the
channel sends are modelled (the ephemeral confirmations carry no mentions and
no AllowedMentions override). -/

/-- The embed description of the RoE report. -/
def roe_embed_description (offenderMention userMention reason : String) (ts : Nat) :
    String :=
  "**Offender:** " ++ offenderMention ++ "\n**Reported by:** " ++ userMention ++
  "\n**Details:** " ++ reason ++ "\n**When:** <t:" ++ toString ts ++ ":F>"

/-- The audit text of the RoE report. -/
def roe_log_content (userMention offenderMention targetRoleMention channelMention : String) :
    String :=
  "RoE reported by " ++ userMention ++ " against " ++ offenderMention ++
  " | Pinged " ++ targetRoleMention ++ " in " ++ channelMention ++ "."

/-- `/roe` `after_modal_submit`: posts the report in the invoking channel with
the target-role ping and `AllowedMentions(roles=True, users=True,
everyone=False)`, then the audit entry via `log_action`. -/
def roe_after_modal_submit (g : Guild) (cfg : Cfg) (invokeChannel : Channel)
    (offender : Member) (targetRole : Role) (invokerId : Nat) (reason : String)
    (ts : Nat) : List Send :=
  ⟨invokeChannel.id, targetRole.mention,
    some (roe_embed_description (user_mention offender.id) (user_mention invokerId) reason ts),
    ⟨true, true, false⟩⟩ ::
  log_action g cfg
    (roe_log_content (user_mention invokerId) (user_mention offender.id)
      targetRole.mention invokeChannel.mention) none

/-- The embed description of the war declaration. -/
def declare_embed_description (targetMention userMention reason : String) (ts : Nat) :
    String :=
  "**Declaring Against:** " ++ targetMention ++ "\n**Declared by:** " ++ userMention ++
  "\n**Reason:** " ++ reason ++ "\n**When:** <t:" ++ toString ts ++ ":F>"

/-- The resolved admiral role of `/declare` (falsy id skipped). -/
def declare_admiral_role (g : Guild) (cfg : Cfg) : Option Role :=
  match truthyId cfg.getAdmiral with
  | some rid => g.get_role rid
  | none => none

/-- The resolved war channel of `/declare` (falsy id skipped). -/
def declare_war_channel (g : Guild) (cfg : Cfg) : Option Channel :=
  match truthyId cfg.getWar with
  | some cid => g.get_channel cid
  | none => none

/-- The ping content of the declaration: target mention plus the admiral
mention when the admiral role resolves. -/
def declare_content (g : Guild) (cfg : Cfg) (targetRole : Role) : String :=
  String.intercalate " "
    (targetRole.mention ::
      (match declare_admiral_role g cfg with
       | some r => [r.mention]
       | none => []))

/-- Python `content or "none"` in the declaration audit text. -/
def orNoneWord (s : String) : String :=
  if s == "" then "none" else s

/-- The destinations listed in the declaration audit text (jump urls
abstracted). -/
def declare_msg_links (g : Guild) (cfg : Cfg) (invokeChannel : Channel) : List String :=
  invokeChannel.mention ::
    (match declare_war_channel g cfg with
     | some ch => if ch.isTextChannel then [ch.mention] else []
     | none => [])

/-- The audit text of the war declaration. -/
def declare_log_content (g : Guild) (cfg : Cfg) (invokeChannel : Channel)
    (targetRole : Role) (invokerId : Nat) : String :=
  "War declared by " ++ user_mention invokerId ++ " vs " ++ targetRole.mention ++
  ". Pings: " ++ orNoneWord (declare_content g cfg targetRole) ++ ". Posted to: " ++
  String.intercalate ", " (declare_msg_links g cfg invokeChannel)

/-- `/declare` `after_modal_submit`: posts the declaration in the invoking
channel, mirrors it to the war channel when that resolves to a text channel —
both with `AllowedMentions(roles=True, users=True, everyone=False)` — then the
audit entry via `log_action`. -/
def declare_after_modal_submit (g : Guild) (cfg : Cfg) (invokeChannel : Channel)
    (targetRole : Role) (invokerId : Nat) (reason : String) (ts : Nat) : List Send :=
  ⟨invokeChannel.id, declare_content g cfg targetRole,
    some (declare_embed_description targetRole.mention (user_mention invokerId) reason ts),
    ⟨true, true, false⟩⟩ ::
  ((match declare_war_channel g cfg with
    | some ch =>
      if ch.isTextChannel then
        [⟨ch.id, declare_content g cfg targetRole,
          some (declare_embed_description targetRole.mention (user_mention invokerId) reason ts),
          ⟨true, true, false⟩⟩]
      else []
    | none => []) ++
   log_action g cfg (declare_log_content g cfg invokeChannel targetRole invokerId) none)

/-!  Concrete fixtures used by the closed witnesses. -/

/-- A small guild: two usable roles, the @everyone default role, two text
channels and one voice channel. -/
def gTest : Guild :=
  ⟨1,
   [⟨100, "Captain", 2, false⟩, ⟨200, "Pirate", 1, false⟩, ⟨1, "everyone", 0, true⟩],
   [⟨10, "log", true⟩, ⟨11, "war", true⟩, ⟨12, "voice", false⟩]⟩

/-- The admin member who opens the test panel. -/
def memTest : Member :=
  ⟨5, [100], true⟩

/-- A freshly opened panel over an unconfigured guild. -/
def viewTest : SetupView :=
  mkSetupView gTest emptyCfg memTest

/-- The test panel after a session selecting roles and the log channel. -/
def viewTestLog : SetupView :=
  viewTest.withValues [100] [200] [] [] [10]

/-- A session that explicitly selects the "None" admiral sentinel. -/
def viewAdmiralNone : SetupView :=
  viewTest.withValues [] [] [SelVal.sentinelNone] [] [10]

/-- A session that never touches the admiral select. -/
def viewAdmiralUntouched : SetupView :=
  viewTest.withValues [] [] [] [] [10]

/-- A config whose log channel id points at the voice channel of `gTest`. -/
def cfgVoiceLog : Cfg :=
  ⟨some [100], some [], some none, some none, some (some 12), some 5, some 0⟩

/-!  Shared helper lemmas about the policy. -/

theorem isEmpty_false_of_mem {l : List Nat} {r : Nat} (hr : r ∈ l) :
    l.isEmpty = false := by
  cases l with
  | nil => cases hr
  | cons a as => rfl

theorem member_has_any_role_of_mem (m : Member) (l : List Nat) (r : Nat)
    (hr : r ∈ l) (hm : r ∈ m.roleIds) : member_has_any_role m l = true := by
  unfold member_has_any_role
  rw [isEmpty_false_of_mem hr]
  simp only [Bool.false_eq_true, if_false, List.any_eq_true]
  exact ⟨r, hr, List.elem_eq_true_of_mem hm⟩

/-- C1: for every config and member whose role set meets both the allowed and
the excluded role lists, `can_use_commands` denies with the exclusion reason:
exclusion takes precedence over allowance. (A nonempty intersection with
`allowed_role_ids` forces that list nonempty, so the claim hypothesis of a
non-empty allowed list is implied.) -/
theorem exclusion_overrides_allowance (cfg : Cfg) (m : Member) (ra re : Nat)
    (ha1 : ra ∈ cfg.getAllowed) (ha2 : ra ∈ m.roleIds)
    (he1 : re ∈ cfg.getExcluded) (he2 : re ∈ m.roleIds) :
    can_use_commands (User.member m) cfg = (false, excludedMsg) := by
  have hA : member_has_any_role m cfg.getAllowed = true :=
    member_has_any_role_of_mem m _ ra ha1 ha2
  have hE : member_has_any_role m cfg.getExcluded = true :=
    member_has_any_role_of_mem m _ re he1 he2
  have hAne : cfg.getAllowed.isEmpty = false := isEmpty_false_of_mem ha1
  have hEne : cfg.getExcluded.isEmpty = false := isEmpty_false_of_mem he1
  simp [can_use_commands, hA, hE, hAne, hEne]

/-- Witness for C1 at a concrete config and member. -/
theorem exclusion_overrides_allowance_witness :
    can_use_commands
      (User.member ⟨5, [1, 2], false⟩)
      ⟨some [1], some [2], some none, some none, some (some 10), some 7, some 0⟩
      = (false, excludedMsg) :=
  exclusion_overrides_allowance _ _ 1 2 (by decide) (by decide) (by decide) (by decide)

/-- C2: for every config whose allowed-role list reads back empty and every
user (member or not, excluded roles or none), `can_use_commands` denies with
the not-configured reason: the empty-allowed check comes first. -/
theorem empty_allowed_denies_all (cfg : Cfg) (u : User)
    (h : cfg.getAllowed = []) :
    can_use_commands u cfg = (false, notConfiguredMsg) := by
  simp [can_use_commands, h]

/-- Witness for C2: a member that even holds an excluded role is still denied
with the not-configured reason when allowed roles are empty. -/
theorem empty_allowed_denies_all_witness :
    can_use_commands
      (User.member ⟨5, [2], true⟩)
      ⟨some [], some [2], some none, some none, some (some 10), some 7, some 0⟩
      = (false, notConfiguredMsg) :=
  empty_allowed_denies_all _ _ (by decide)

/-- C10: for every guild id whose config file is absent or unparseable,
`load_cfg` returns the empty config (it never raises: the parse failure is
swallowed), and consequently every authorization check against the loaded
config denies with the not-configured reason. -/
theorem missing_or_corrupt_storage_denies_all (fs : ConfigDir) (gid : Nat)
    (h : fs gid = .absent ∨ ∃ raw, fs gid = .corrupt raw) :
    load_cfg fs gid = emptyCfg ∧
      ∀ u : User, can_use_commands u (load_cfg fs gid) = (false, notConfiguredMsg) := by
  have hload : load_cfg fs gid = emptyCfg := by
    rcases h with h | ⟨raw, h⟩ <;> simp [load_cfg, h]
  refine ⟨hload, fun u => ?_⟩
  rw [hload]
  exact empty_allowed_denies_all emptyCfg u rfl

/-- Witness for C10 on a config directory with one corrupt file and otherwise
absent files. -/
theorem missing_or_corrupt_storage_denies_all_witness :
    load_cfg (fun g => if g == 42 then .corrupt "not json" else .absent) 42 = emptyCfg ∧
      ∀ u : User,
        can_use_commands u
          (load_cfg (fun g => if g == 42 then .corrupt "not json" else .absent) 42)
          = (false, notConfiguredMsg) :=
  missing_or_corrupt_storage_denies_all _ 42 (Or.inr ⟨"not json", by decide⟩)

/-- C3: for every wizard session in which no log channel was ever selected,
`save` is rejected before any mutation: the complete outcome is one ephemeral
field-specific error to the invoker, the wizard stays Open, no exception, and
the effect list contains no store write (the draft — the view and its
submitted values — is untouched since `save` reads it purely). -/
theorem save_without_log_channel_is_rejected (v : SetupView) (writeOk : Bool)
    (userId now : Nat) (h : v.log_values = []) :
    v.save writeOk userId now
      = ⟨[Effect.respond "Please select a **Log Channel**." true],
         WizardState.opened, false⟩ := by
  unfold SetupView.save
  rw [h]

/-- Witness for C3 on the freshly opened test panel (log select untouched). -/
theorem save_without_log_channel_is_rejected_witness :
    viewTest.save true 5 1000
      = ⟨[Effect.respond "Please select a **Log Channel**." true],
         WizardState.opened, false⟩ :=
  save_without_log_channel_is_rejected viewTest true 5 1000 rfl

/-- C6: for every wizard save with a log channel selected, the store write is
the first effect and every audit send comes after it in the effect sequence;
and when the durable write raises, the handler aborts with no audit send (and
no success edit) at all. -/
theorem save_writes_before_audit (v : SetupView) (userId now log0 : Nat)
    (rest : List Nat) (h : v.log_values = log0 :: rest) :
    (v.save true userId now).effects
        = Effect.storeWrite v.guild.id (v.newCfg log0 userId now) ::
          Effect.editMessage ("✅ **Configuration saved.**\n" ++ v.saveSummaryText log0) ::
          (log_action v.guild (v.newCfg log0 userId now)
            ("🛠️ Configuration updated by " ++ user_mention userId ++ ".\n" ++
              v.saveSummaryText log0) none).map Effect.send
      ∧ v.save false userId now = ⟨[], WizardState.opened, true⟩ := by
  unfold SetupView.save
  rw [h]
  exact ⟨rfl, rfl⟩

/-- Witness for C6 on a session that selected the log channel. -/
theorem save_writes_before_audit_witness :
    (viewTestLog.save true 5 1000).effects
        = Effect.storeWrite viewTestLog.guild.id (viewTestLog.newCfg 10 5 1000) ::
          Effect.editMessage ("✅ **Configuration saved.**\n" ++ viewTestLog.saveSummaryText 10) ::
          (log_action viewTestLog.guild (viewTestLog.newCfg 10 5 1000)
            ("🛠️ Configuration updated by " ++ user_mention 5 ++ ".\n" ++
              viewTestLog.saveSummaryText 10) none).map Effect.send
      ∧ viewTestLog.save false 5 1000 = ⟨[], WizardState.opened, true⟩ :=
  save_writes_before_audit viewTestLog 5 1000 10 [] rfl

/-- C4 (amended): a successful save writes exactly the session cfg, and an
immediately following `load_cfg` on the written store returns exactly that
cfg, field by field the saved values; an admiral role explicitly set to the
"none" sentinel is stored as an explicit null. (The original distinctness
clause fails: see `explicit_none_admiral_equals_untouched`.) -/
theorem save_then_load_returns_saved_fields (fs : ConfigDir) (v : SetupView)
    (userId now log0 : Nat) (rest : List Nat) (h : v.log_values = log0 :: rest) :
    (v.save true userId now).effects.head?
        = some (Effect.storeWrite v.guild.id (v.newCfg log0 userId now))
      ∧ load_cfg (save_cfg fs v.guild.id (v.newCfg log0 userId now)) v.guild.id
        = v.newCfg log0 userId now
      ∧ (v.newCfg log0 userId now).allowed_role_ids = some v.allowed_values
      ∧ (v.newCfg log0 userId now).excluded_role_ids = some v.excluded_values
      ∧ (v.newCfg log0 userId now).admiral_role_id = some (firstIdOrNone v.admiral_values)
      ∧ (v.newCfg log0 userId now).war_channel_id = some (firstIdOrNone v.war_values)
      ∧ (v.newCfg log0 userId now).log_channel_id = some (some log0)
      ∧ (v.admiral_values = [SelVal.sentinelNone] →
          (v.newCfg log0 userId now).admiral_role_id = some none) := by
  refine ⟨?_, ?_, rfl, rfl, rfl, rfl, rfl, ?_⟩
  · unfold SetupView.save
    rw [h]
    rfl
  · simp [load_cfg, save_cfg]
  · intro h2
    simp [SetupView.newCfg, newCfgOf, h2, firstIdOrNone]

/-- Witness for the amended C4 on the session that explicitly selects the
"None" admiral sentinel, over an initially empty store. -/
theorem save_then_load_returns_saved_fields_witness :
    (viewAdmiralNone.save true 5 1000).effects.head?
        = some (Effect.storeWrite viewAdmiralNone.guild.id (viewAdmiralNone.newCfg 10 5 1000))
      ∧ load_cfg
          (save_cfg (fun _ => FileContent.absent) viewAdmiralNone.guild.id
            (viewAdmiralNone.newCfg 10 5 1000))
          viewAdmiralNone.guild.id
        = viewAdmiralNone.newCfg 10 5 1000
      ∧ (viewAdmiralNone.newCfg 10 5 1000).allowed_role_ids = some viewAdmiralNone.allowed_values
      ∧ (viewAdmiralNone.newCfg 10 5 1000).excluded_role_ids = some viewAdmiralNone.excluded_values
      ∧ (viewAdmiralNone.newCfg 10 5 1000).admiral_role_id
          = some (firstIdOrNone viewAdmiralNone.admiral_values)
      ∧ (viewAdmiralNone.newCfg 10 5 1000).war_channel_id
          = some (firstIdOrNone viewAdmiralNone.war_values)
      ∧ (viewAdmiralNone.newCfg 10 5 1000).log_channel_id = some (some 10)
      ∧ (viewAdmiralNone.admiral_values = [SelVal.sentinelNone] →
          (viewAdmiralNone.newCfg 10 5 1000).admiral_role_id = some none) :=
  save_then_load_returns_saved_fields (fun _ => FileContent.absent) viewAdmiralNone
    5 1000 10 [] rfl

/-- Counterexample to C4 as stated: a session that explicitly selects the
"None" admiral sentinel and a session that never touches the admiral select
produce the very same stored config (admiral_role_id null in both) and the
very same save outcome — the two states are not distinct. -/
theorem explicit_none_admiral_equals_untouched :
    viewAdmiralNone.newCfg 10 5 1000 = viewAdmiralUntouched.newCfg 10 5 1000
      ∧ viewAdmiralNone.save true 5 1000 = viewAdmiralUntouched.save true 5 1000
      ∧ viewAdmiralNone.admiral_values ≠ viewAdmiralUntouched.admiral_values := by
  refine ⟨rfl, rfl, ?_⟩
  decide

/-- C9: the config a save persists is a function of the current session's
submissions alone — the config the panel was opened with (rendered only as
preselected defaults) never leaks into the written values — and a session
that touches nothing but the log select persists empty role lists and null
optional fields. -/
theorem persisted_fields_from_session_only (g : Guild) (c1 c2 : Cfg) (inv : Member)
    (writeOk : Bool) (userId now : Nat) (a e : List Nat) (ad w : List SelVal)
    (l : List Nat) :
    ((mkSetupView g c1 inv).withValues a e ad w l).save writeOk userId now
        = ((mkSetupView g c2 inv).withValues a e ad w l).save writeOk userId now
      ∧ (∀ log0 : Nat,
          ((mkSetupView g c1 inv).withValues [] [] [] [] [log0]).newCfg log0 userId now
            = newCfgOf [] [] none none log0 userId now) := by
  exact ⟨rfl, fun _ => rfl⟩

/-- C5: every channel send of the RoE flow, of the declare flow (invoking
channel, war mirror), and of the audit logger carries
`AllowedMentions(everyone=False)`, for every guild, config and caller-supplied
mention content. -/
theorem outbound_sends_never_ping_everyone (g : Guild) (cfg : Cfg)
    (invokeChannel : Channel) (offender : Member) (targetRole : Role)
    (invokerId : Nat) (reason : String) (ts : Nat) (content : String)
    (embed : Option String) :
    (roe_after_modal_submit g cfg invokeChannel offender targetRole invokerId
        reason ts).all noEveryone = true
      ∧ (declare_after_modal_submit g cfg invokeChannel targetRole invokerId
          reason ts).all noEveryone = true
      ∧ (log_action g cfg content embed).all noEveryone = true := by
  have hlog : ∀ c : String, ∀ em : Option String,
      (log_action g cfg c em).all noEveryone = true := by
    intro c em
    unfold log_action
    split
    · rfl
    · split
      · split <;> rfl
      · rfl
  refine ⟨?_, ?_, hlog content embed⟩
  · unfold roe_after_modal_submit
    simp only [List.all_cons, Bool.and_eq_true]
    exact ⟨rfl, hlog _ _⟩
  · unfold declare_after_modal_submit
    simp only [List.all_cons, List.all_append, Bool.and_eq_true]
    refine ⟨rfl, ?_, hlog _ _⟩
    split
    · split <;> rfl
    · rfl

/-- C7: whenever the configured audit destination is unset or no longer
resolves to a live text channel, `log_action` performs no send at all; it is a
total function (the Python original has no raising path there), so a missing
audit destination cannot block the primary action's success response. -/
theorem log_action_noop_without_destination (g : Guild) (cfg : Cfg)
    (content : String) (embed : Option String)
    (h : noLiveAuditDestination g cfg = true) :
    log_action g cfg content embed = [] := by
  unfold noLiveAuditDestination at h
  unfold log_action
  split
  · rfl
  · next cid htr =>
    rw [htr] at h
    have h2 : (match g.get_channel cid with
               | none => true
               | some ch => !ch.isTextChannel) = true := h
    split
    · next ch hch =>
      rw [hch] at h2
      have h3 : ch.isTextChannel = false := by simpa using h2
      rw [h3]
      rfl
    · rfl

/-- Witness for C7 on a config whose log id resolves to a non-text (voice)
channel. -/
theorem log_action_noop_without_destination_witness :
    noLiveAuditDestination gTest cfgVoiceLog = true
      ∧ log_action gTest cfgVoiceLog "entry" none = [] :=
  ⟨by decide, log_action_noop_without_destination gTest cfgVoiceLog "entry" none (by decide)⟩

/-- C8: an interaction on an open setup panel is accepted (no effects) exactly
for the opening admin or a guild member with the administrator permission;
every other user is rejected: the check returns false — so no component
callback runs and neither the draft nor the stored config is touched — and
its only effect is one ephemeral lock message. -/
theorem setup_panel_locked_to_admin (v : SetupView) (u : User) :
    (u.uid = v.invoker.id ∨ (∃ m, u = User.member m ∧ m.isAdministrator = true) →
        v.interaction_check u = (true, []))
      ∧ (u.uid ≠ v.invoker.id ∧ (∀ m, u = User.member m → m.isAdministrator = false) →
          v.interaction_check u = (false, [Effect.respond lockedMsg true])) := by
  constructor
  · intro h
    unfold SetupView.interaction_check
    rcases h with h | ⟨m, rfl, hm⟩
    · simp [h]
    · cases hid : ((User.member m).uid == v.invoker.id) <;> simp [hm]
  · rintro ⟨h1, h2⟩
    unfold SetupView.interaction_check
    have hne : (u.uid == v.invoker.id) = false := by
      simp [h1]
    rw [hne]
    cases u with
    | plain i => rfl
    | member m =>
      have := h2 m rfl
      simp [this]

/-- Witness for C8: a non-admin member who is not the opener is rejected with
the ephemeral lock message and no other effect. -/
theorem setup_panel_locked_to_admin_witness :
    viewTest.interaction_check (User.member ⟨6, [], false⟩)
      = (false, [Effect.respond lockedMsg true]) :=
  (setup_panel_locked_to_admin viewTest (User.member ⟨6, [], false⟩)).2
    ⟨by decide, by intro m hm; cases hm; rfl⟩

end Aegis
